import Mathlib

/-!
Shallow embedding of the notification-forwarding gateway (Python sources:
`firestore_service.py`, `email_service.py`, `smtp_service.py`,
`teams_service.py`, `main.py`) and proofs of the spec claims about it.

The Firestore document store is embedded as an association list from document
id to document; `datetime.utcnow()` is passed in explicitly as a timestamp
parameter; Python exceptions become `Except` error values (raising an
exception before a write means the returned store is unchanged).
-/

namespace Notification

/-- Python error values raised by `FirestoreService`:
`ValueError` for already-exists / does-not-exist, `FirestoreError` for
store-driver failures. -/
inductive FsErr
  | valueError (msg : String)
  | firestoreError (msg : String)
  deriving DecidableEq, Repr

/-- One email-group document, as written by
`FirestoreService.add_email_group` (`firestore_service.py` lines 78-85):
the fields of the `data` dict, with `datetime.utcnow()` embedded as a
`Nat` timestamp supplied by the caller. -/
structure GroupDoc where
  appcode : String
  alert_type : String
  members : List String
  addedby : String
  task_id : String
  timestamp : Nat
  deriving DecidableEq, Repr

/-- The email-groups collection: document id -> document. -/
abbrev GroupStore := List (String × GroupDoc)

/-- `doc_id = f"{appcode}-{alert_type}"` (`firestore_service.py` line 66). -/
def docId (appcode alert_type : String) : String :=
  appcode ++ "-" ++ alert_type

/-- `doc_ref.get()` on the email-groups collection: `none` when
`doc.exists` is false. -/
def getDoc (s : GroupStore) (id : String) : Option GroupDoc :=
  s.lookup id

/-- `doc_ref.set(data)` / `doc_ref.update(...)`: (re)bind the document id;
lookup sees the newest binding. -/
def setDoc (s : GroupStore) (id : String) (d : GroupDoc) : GroupStore :=
  (id, d) :: s

/-- `firestore.ArrayUnion(members)` applied to a stored array: each element
of `new` is appended, in order, only if not already present. -/
def arrayUnion (old new : List String) : List String :=
  new.foldl (fun acc x => if x ∈ acc then acc else acc ++ [x]) old

/-- `firestore.ArrayRemove(members)` applied to a stored array: every
occurrence of every listed element is removed. -/
def arrayRemove (old rem : List String) : List String :=
  old.filter (fun x => ¬ x ∈ rem)

/-- `FirestoreService.add_email_group` (`firestore_service.py` lines 37-108),
happy store path: check `doc.exists`, raise `ValueError` if the group
already exists (no write), otherwise `set` the data dict verbatim —
`members` is stored as given — and return it.  The operation returns the
updated store alongside the Python result; on an exception the store is
returned unchanged. -/
def add_email_group (s : GroupStore) (appcode alert_type : String)
    (members : List String) (addedby task_id : String) (now : Nat) :
    Except FsErr GroupDoc × GroupStore :=
  let id := docId appcode alert_type
  match getDoc s id with
  | some _ =>
      (.error (.valueError ("Email group for " ++ appcode ++ " and " ++
        alert_type ++ " already exists. Please add members to the existing group.")), s)
  | none =>
      let data : GroupDoc :=
        { appcode := appcode, alert_type := alert_type, members := members,
          addedby := addedby, task_id := task_id, timestamp := now }
      (.ok data, setDoc s id data)

/-- The dict returned by `FirestoreService.add_members` (line 130):
`{"appcode": ..., "alert_type": ..., "added_members": members}` — note it
carries the *input* member list, not the updated stored set. -/
structure AddMembersResult where
  appcode : String
  alert_type : String
  added_members : List String
  deriving DecidableEq, Repr

/-- The dict returned by `FirestoreService.remove_members` (line 158). -/
structure RemoveMembersResult where
  appcode : String
  alert_type : String
  removed_members : List String
  deriving DecidableEq, Repr

/-- `FirestoreService.add_members` (`firestore_service.py` lines 110-136),
happy store path: raise `ValueError` when the document does not exist,
otherwise update `members` with `ArrayUnion` and return the input list. -/
def add_members (s : GroupStore) (appcode alert_type : String)
    (members : List String) : Except FsErr AddMembersResult × GroupStore :=
  let id := docId appcode alert_type
  match getDoc s id with
  | none =>
      (.error (.valueError ("Email group for " ++ appcode ++ " and " ++
        alert_type ++ " does not exist")), s)
  | some d =>
      (.ok { appcode := appcode, alert_type := alert_type, added_members := members },
       setDoc s id { d with members := arrayUnion d.members members })

/-- `FirestoreService.remove_members` (`firestore_service.py` lines 138-164),
happy store path: raise `ValueError` when the document does not exist,
otherwise update `members` with `ArrayRemove` and return the input list. -/
def remove_members (s : GroupStore) (appcode alert_type : String)
    (members : List String) : Except FsErr RemoveMembersResult × GroupStore :=
  let id := docId appcode alert_type
  match getDoc s id with
  | none =>
      (.error (.valueError ("Email group for " ++ appcode ++ " and " ++
        alert_type ++ " does not exist")), s)
  | some d =>
      (.ok { appcode := appcode, alert_type := alert_type, removed_members := members },
       setDoc s id { d with members := arrayRemove d.members members })

/-- `FirestoreService.get_email_group` (`firestore_service.py` lines 166-185):
returns `None` when the document does not exist (the not-found path never
raises; the `FirestoreError` branch only wraps store-driver exceptions,
which are outside this embedding). -/
def get_email_group (s : GroupStore) (appcode alert_type : String) :
    Option GroupDoc :=
  getDoc s (docId appcode alert_type)

/-- One notification-log document, the `data` dict of
`FirestoreService.log_notification` (`firestore_service.py` lines 195-202). -/
structure LogEntry where
  appcode : String
  alert_type : String
  requestedby : String
  email_content : String
  recipients : List String
  timestamp : Nat
  deriving DecidableEq, Repr

/-- `FirestoreService.log_notification` (`firestore_service.py` lines 187-214):
appends the entry to the notification-logs collection; when the store's
`add` throws (modelled by `storeOk = false`) it raises `FirestoreError`
(line 214) and nothing is appended. -/
def log_notification (logs : List LogEntry) (storeOk : Bool) (e : LogEntry) :
    Except FsErr (List LogEntry) :=
  if storeOk then .ok (logs ++ [e])
  else .error (.firestoreError "Failed to log notification")

/-- Python truthiness of an optional string setting (`if not self.smtp_server`
is taken both when the setting is `None` and when it is the empty string). -/
def truthy : Option String → Bool
  | none => false
  | some s => s != ""

/-- Configuration of `EmailNotificationService` (`email_service.py`
lines 30-58): the settings-derived fields used by `send_email`. -/
structure EmailConfig where
  smtp_server : Option String
  smtp_port : Nat
  smtp_username : Option String
  smtp_password : Option String
  smtp_use_tls : Bool
  sender_email : Option String
  sender_name : String
  deriving DecidableEq, Repr

/-- `EmailNotificationError` messages raised by the configuration checks of
`EmailNotificationService.send_email` (`email_service.py` lines 95-108). -/
inductive EmailErr
  | smtpServerNotConfigured
  | senderEmailNotConfigured
  | noRecipients
  deriving DecidableEq, Repr

/-- The one network call `server.sendmail(from_addr, all_recipients,
msg.as_string())` of `email_service.py` line 145/150: the envelope
sender, the envelope recipient list, and the MIME headers set on `msg`
(in the order the code sets them). -/
structure SendmailCall where
  from_addr : String
  recipients : List String
  headers : List (String × String)
  deriving DecidableEq, Repr

/-- `EmailNotificationService.send_email` (`email_service.py` lines 65-150),
up to the network boundary: the three configuration checks run first, in
order, raising `EmailNotificationError` before any message is built or any
SMTP connection is opened; otherwise the message headers are `Subject`,
`From`, `To` (comma-joined `to_emails`), and `Cc` only when `cc_emails` is
truthy — no `Bcc` header is ever set — while the envelope recipient list is
`to_emails ++ cc_emails ++ bcc_emails`.  `None` optional lists are embedded
as `[]` (Python treats `None` and `[]` identically here: both are falsy). -/
def send_email (cfg : EmailConfig) (to_emails : List String)
    (subject message : String) (cc_emails bcc_emails : List String) :
    Except EmailErr SendmailCall :=
  if ¬ truthy cfg.smtp_server then .error .smtpServerNotConfigured
  else if ¬ truthy cfg.sender_email then .error .senderEmailNotConfigured
  else if to_emails = [] then .error .noRecipients
  else
    let sender := cfg.sender_email.getD ""
    .ok { from_addr := sender,
          recipients := to_emails ++ cc_emails ++ bcc_emails,
          headers :=
            [("Subject", subject),
             ("From", cfg.sender_name ++ " <" ++ sender ++ ">"),
             ("To", String.intercalate ", " to_emails)] ++
            (if cc_emails = [] then []
             else [("Cc", String.intercalate ", " cc_emails)]) }

/-- The settings fields `SmtpService.send_email` reads
(`smtp_service.py` lines 20-36). -/
structure SmtpSettings where
  smtp_host : Option String
  smtp_port : Nat
  smtp_username : Option String
  smtp_password : Option String
  sender_email : Option String
  deriving DecidableEq, Repr

/-- Outcome of `SmtpService.send_email`: either the send is silently
skipped (host not configured: log a warning and `return`), or one
`server.send_message(msg)` network call is made. -/
inductive SmtpOutcome
  | skipped
  | sent (from_addr : Option String) (to_header : String) (subject : String)
  deriving DecidableEq, Repr

namespace SmtpService

/-- `SmtpService.send_email` (`smtp_service.py` lines 16-44), up to the
network boundary: when `settings.smtp_host` is falsy the send is skipped
without error; otherwise the message is built — `From` from settings,
`To` comma-joined — and sent.  No check of the sender identity or of the
recipient list is performed. -/
def send_email (st : SmtpSettings) (to_emails : List String)
    (subject content : String) : SmtpOutcome :=
  if ¬ truthy st.smtp_host then .skipped
  else .sent st.sender_email (String.intercalate ", " to_emails) subject

end SmtpService

/-- Python `str.lower()`, embedded character-wise (the severity strings in
play are ASCII). -/
def pyLower (s : String) : String := String.mk (s.data.map Char.toLower)

/-- The `color_map` dict of `_get_severity_color` (`main.py` lines 221-226). -/
def color_map : List (String × String) :=
  [("info", "0078D4"), ("warning", "FFA500"),
   ("error", "D13438"), ("success", "28A745")]

/-- `_get_severity_color` (`main.py` lines 219-227):
`color_map.get(severity.lower() if severity else "info", "0078D4")` —
a falsy severity (absent or empty) keys on `"info"`, otherwise the
lowercased severity; unknown keys fall back to `"0078D4"`. -/
def get_severity_color (severity : Option String) : String :=
  let key :=
    match severity with
    | some s => if s = "" then "info" else pyLower s
    | none => "info"
  match color_map.lookup key with
  | some c => c
  | none => "0078D4"

/-- One `name`/`value` fact row of a Teams message card. -/
structure Fact where
  name : String
  value : String
  deriving DecidableEq, Repr

/-- The Teams `MessageCard` payload built by
`TeamsNotificationService._build_message_card` (`teams_service.py`
lines 120-191): each entry of `sections` is that section's `facts` list;
`potentialAction` holds the URIs of the `OpenUri` actions. -/
structure MessageCard where
  themeColor : String
  title : String
  text : String
  sections : List (List Fact)
  potentialAction : List String
  deriving DecidableEq, Repr

/-- `TeamsNotificationService._build_message_card` (`teams_service.py`
lines 120-191): a first facts section holds the optional `URL` row followed
by the `additional_facts` pairs in insertion order (the section is present
only when nonempty); a second section always holds a single `Timestamp` row
generated from the call's wall clock (embedded as the `now` parameter);
`potentialAction` carries the URL when present.  `additional_facts = none`
embeds Python `None`. -/
def build_message_card (message : String) (url : Option String)
    (title color : String) (additional_facts : Option (List (String × String)))
    (now : String) : MessageCard :=
  let facts : List Fact :=
    (match url with
     | some u => [{ name := "URL", value := u }]
     | none => []) ++
    (match additional_facts with
     | some kvs => kvs.map (fun kv => { name := kv.1, value := kv.2 })
     | none => [])
  { themeColor := color,
    title := title,
    text := message,
    sections :=
      (if facts = [] then [] else [facts]) ++
      [[{ name := "Timestamp", value := now }]],
    potentialAction :=
      match url with
      | some u => [u]
      | none => [] }

/-- Terminal states of the notify-group workflow (spec section 4.3). -/
inductive FlowState
  | notFound
  | emptyGroup
  | logFailed
  | sentOk
  | dispatchFailed
  deriving DecidableEq, Repr

/-- Observable trace of one notify-group execution: the terminal state,
whether a notification-log entry was committed, and whether the channel
sender was invoked. -/
structure FlowTrace where
  state : FlowState
  logWritten : Bool
  senderInvoked : Bool
  deriving DecidableEq, Repr

/-- Modelled from the spec: the notify-group Workflow Orchestrator of spec
section 4.3 is not present under `src/` (only `test_group_email.py`
`run_flow` simulates its steps), so its composition is taken from the
spec's state machine — Resolve via `get_email_group` (absent gives
`NotFound`, empty `members` gives `EmptyGroup`), then Log via
`log_notification` with the current member snapshot (a raised
`FirestoreError` gives terminal `LogFailed` with no dispatch), then
Dispatch via the channel sender, one attempt (`dispatchOk` abstracts the
sender's success), giving `Sent` or `DispatchFailed`.  The Resolve and Log
steps are the embeddings of the real `firestore_service.py` operations;
`logOk` abstracts the log store's `add` succeeding.  Returns the trace and
the resulting notification-log collection. -/
def notify_group_flow (s : GroupStore) (logs : List LogEntry)
    (logOk dispatchOk : Bool) (appcode alert_type requestedby content : String)
    (now : Nat) : FlowTrace × List LogEntry :=
  match get_email_group s appcode alert_type with
  | none => ({ state := .notFound, logWritten := false, senderInvoked := false }, logs)
  | some d =>
    if d.members = [] then
      ({ state := .emptyGroup, logWritten := false, senderInvoked := false }, logs)
    else
      match log_notification logs logOk
          { appcode := appcode, alert_type := alert_type,
            requestedby := requestedby, email_content := content,
            recipients := d.members, timestamp := now } with
      | .error _ =>
          ({ state := .logFailed, logWritten := false, senderInvoked := false }, logs)
      | .ok logs2 =>
          if dispatchOk then
            ({ state := .sentOk, logWritten := true, senderInvoked := true }, logs2)
          else
            ({ state := .dispatchFailed, logWritten := true, senderInvoked := true }, logs2)

/-! ## Helper lemmas -/

theorem getDoc_setDoc_self (s : GroupStore) (id : String) (d : GroupDoc) :
    getDoc (setDoc s id d) id = some d := by
  simp [getDoc, setDoc, List.lookup]

theorem arrayUnion_eq_append (L : List String) :
    ∀ old : List String, ∃ ext, arrayUnion old L = old ++ ext ∧ ∀ x ∈ ext, x ∈ L := by
  induction L with
  | nil => intro old; exact ⟨[], by simp [arrayUnion], by simp⟩
  | cons a L ih =>
    intro old
    by_cases ha : a ∈ old
    · obtain ⟨ext, h1, h2⟩ := ih old
      refine ⟨ext, ?_, fun x hx => List.mem_cons_of_mem a (h2 x hx)⟩
      simpa [arrayUnion, ha] using h1
    · obtain ⟨ext, h1, h2⟩ := ih (old ++ [a])
      refine ⟨a :: ext, ?_, ?_⟩
      · simp only [arrayUnion, List.foldl_cons, if_neg ha] at *
        simpa using h1
      · intro x hx
        rcases List.mem_cons.mp hx with h | h
        · exact h ▸ List.mem_cons_self a L
        · exact List.mem_cons_of_mem a (h2 x h)

theorem arrayRemove_arrayUnion (old L : List String)
    (h : ∀ x ∈ L, x ∉ old) : arrayRemove (arrayUnion old L) L = old := by
  obtain ⟨ext, h1, h2⟩ := arrayUnion_eq_append L old
  rw [h1, arrayRemove, List.filter_append]
  have hold : old.filter (fun x => ¬ x ∈ L) = old := by
    apply List.filter_eq_self.mpr
    intro a ha
    simpa using fun hc => h a hc ha
  have hext : ext.filter (fun x : String => ¬ x ∈ L) = [] := by
    rw [List.filter_eq_nil_iff]
    intro a ha
    simpa using h2 a ha
  rw [hold, hext, List.append_nil]

/-! ## Claim theorems -/

/-- C2: for a key with no existing group, `add_email_group` succeeds and
stores the record — with the creation timestamp — under document id
`"{appcode}-{alert_type}"`; a second create for the same key fails with the
already-exists `ValueError` and leaves both the store and the first record
unmodified. -/
theorem add_email_group_create_once_then_conflict
    (s : GroupStore) (a t : String) (ms : List String) (ab tid : String) (now : Nat)
    (ms2 : List String) (ab2 tid2 : String) (now2 : Nat)
    (h : getDoc s (docId a t) = none) :
    (add_email_group s a t ms ab tid now).1 = .ok ⟨a, t, ms, ab, tid, now⟩ ∧
    getDoc (add_email_group s a t ms ab tid now).2 (docId a t) = some ⟨a, t, ms, ab, tid, now⟩ ∧
    (∃ msg, (add_email_group (add_email_group s a t ms ab tid now).2 a t ms2 ab2 tid2 now2).1 =
      .error (.valueError msg)) ∧
    (add_email_group (add_email_group s a t ms ab tid now).2 a t ms2 ab2 tid2 now2).2 =
      (add_email_group s a t ms ab tid now).2 ∧
    getDoc (add_email_group (add_email_group s a t ms ab tid now).2 a t ms2 ab2 tid2 now2).2
      (docId a t) = some ⟨a, t, ms, ab, tid, now⟩ := by
  simp [add_email_group, h, getDoc_setDoc_self]

/-- Witness for C2 at the spec's concrete scenario:
`("BILLING", "CRITICAL", ["a@x.com"], "alice", "T1")`. -/
theorem add_email_group_create_once_then_conflict_witness :
    (add_email_group ([] : GroupStore) "BILLING" "CRITICAL" ["a@x.com"] "alice" "T1" 0).1 =
      .ok ⟨"BILLING", "CRITICAL", ["a@x.com"], "alice", "T1", 0⟩ ∧
    getDoc (add_email_group ([] : GroupStore) "BILLING" "CRITICAL" ["a@x.com"] "alice" "T1" 0).2
      (docId "BILLING" "CRITICAL") = some ⟨"BILLING", "CRITICAL", ["a@x.com"], "alice", "T1", 0⟩ ∧
    (∃ msg, (add_email_group
        (add_email_group ([] : GroupStore) "BILLING" "CRITICAL" ["a@x.com"] "alice" "T1" 0).2
        "BILLING" "CRITICAL" ["a@x.com"] "alice" "T1" 1).1 = .error (.valueError msg)) ∧
    (add_email_group
        (add_email_group ([] : GroupStore) "BILLING" "CRITICAL" ["a@x.com"] "alice" "T1" 0).2
        "BILLING" "CRITICAL" ["a@x.com"] "alice" "T1" 1).2 =
      (add_email_group ([] : GroupStore) "BILLING" "CRITICAL" ["a@x.com"] "alice" "T1" 0).2 ∧
    getDoc (add_email_group
        (add_email_group ([] : GroupStore) "BILLING" "CRITICAL" ["a@x.com"] "alice" "T1" 0).2
        "BILLING" "CRITICAL" ["a@x.com"] "alice" "T1" 1).2
      (docId "BILLING" "CRITICAL") = some ⟨"BILLING", "CRITICAL", ["a@x.com"], "alice", "T1", 0⟩ :=
  add_email_group_create_once_then_conflict [] "BILLING" "CRITICAL" ["a@x.com"] "alice" "T1" 0
    ["a@x.com"] "alice" "T1" 1 rfl

/-- C4 counterexample: `add_members` then `remove_members` with the same
list does NOT restore the original member set when a removed member was
already present — even though the original set `["a@x.com"]` has no
duplicates, so the claim's duplicates exception does not apply.  After
adding and then removing `"a@x.com"`, the stored members are `[]`, not the
original `["a@x.com"]`. -/
theorem add_remove_members_no_round_trip_on_overlap :
    (getDoc (remove_members (add_members
        [(docId "BILLING" "CRITICAL", ⟨"BILLING", "CRITICAL", ["a@x.com"], "alice", "T1", 0⟩)]
        "BILLING" "CRITICAL" ["a@x.com"]).2 "BILLING" "CRITICAL" ["a@x.com"]).2
      (docId "BILLING" "CRITICAL")).map GroupDoc.members = some [] ∧
    (["a@x.com"] : List String).Nodup ∧
    some ([] : List String) ≠ some ["a@x.com"] := by
  refine ⟨rfl, by decide, by decide⟩

/-- C4 (amended): for an existing group none of whose stored members occurs
in the list `ms`, `add_members` followed by `remove_members` with `ms`
restores the original record exactly. -/
theorem add_then_remove_members_round_trip
    (s : GroupStore) (a t : String) (ms : List String) (d : GroupDoc)
    (hd : getDoc s (docId a t) = some d)
    (hdisj : ∀ x ∈ ms, x ∉ d.members) :
    getDoc (remove_members (add_members s a t ms).2 a t ms).2 (docId a t) = some d := by
  have h1 : (add_members s a t ms).2 =
      setDoc s (docId a t) { d with members := arrayUnion d.members ms } := by
    simp [add_members, hd]
  have h2 : getDoc (add_members s a t ms).2 (docId a t) =
      some { d with members := arrayUnion d.members ms } := by
    rw [h1]; exact getDoc_setDoc_self ..
  have h3 : (remove_members (add_members s a t ms).2 a t ms).2 =
      setDoc (add_members s a t ms).2 (docId a t)
        { d with members := arrayRemove (arrayUnion d.members ms) ms } := by
    simp [remove_members, h2]
  rw [h3, getDoc_setDoc_self, arrayRemove_arrayUnion _ _ hdisj]

/-- Witness for the amended C4: adding then removing `"b@x.com"` on a group
whose members are `["a@x.com"]` restores the original record. -/
theorem add_then_remove_members_round_trip_witness :
    getDoc (remove_members (add_members
        [(docId "BILLING" "CRITICAL", ⟨"BILLING", "CRITICAL", ["a@x.com"], "alice", "T1", 0⟩)]
        "BILLING" "CRITICAL" ["b@x.com"]).2 "BILLING" "CRITICAL" ["b@x.com"]).2
      (docId "BILLING" "CRITICAL") = some ⟨"BILLING", "CRITICAL", ["a@x.com"], "alice", "T1", 0⟩ :=
  add_then_remove_members_round_trip _ "BILLING" "CRITICAL" ["b@x.com"] _ rfl (by decide)

/-- C5 counterexample: `add_members` does not return the updated member
set — it returns the input list it was given (`added_members`).  On a group
with members `["a@x.com"]`, adding `["b@x.com"]` stores
`["a@x.com", "b@x.com"]` but returns `["b@x.com"]`. -/
theorem add_members_returns_input_not_updated_set :
    (add_members
        [(docId "BILLING" "CRITICAL", ⟨"BILLING", "CRITICAL", ["a@x.com"], "alice", "T1", 0⟩)]
        "BILLING" "CRITICAL" ["b@x.com"]).1 =
      .ok ⟨"BILLING", "CRITICAL", ["b@x.com"]⟩ ∧
    (getDoc (add_members
        [(docId "BILLING" "CRITICAL", ⟨"BILLING", "CRITICAL", ["a@x.com"], "alice", "T1", 0⟩)]
        "BILLING" "CRITICAL" ["b@x.com"]).2 (docId "BILLING" "CRITICAL")).map GroupDoc.members =
      some ["a@x.com", "b@x.com"] ∧
    (["b@x.com"] : List String) ≠ ["a@x.com", "b@x.com"] := by
  refine ⟨rfl, rfl, by decide⟩

/-- C5 (amended): on a missing group both operations fail with the
does-not-exist `ValueError` and leave the store unchanged; on an existing
group `add_members` stores the `ArrayUnion` of the old members with the
input and `remove_members` stores the `ArrayRemove`, while each returns the
*input* member list (`added_members` / `removed_members`), not the updated
set. -/
theorem add_remove_members_update_and_not_found
    (s : GroupStore) (a t : String) (ms : List String) :
    (getDoc s (docId a t) = none →
       (∃ m1, (add_members s a t ms).1 = .error (.valueError m1)) ∧
       (add_members s a t ms).2 = s ∧
       (∃ m2, (remove_members s a t ms).1 = .error (.valueError m2)) ∧
       (remove_members s a t ms).2 = s) ∧
    (∀ d, getDoc s (docId a t) = some d →
       (add_members s a t ms).1 = .ok ⟨a, t, ms⟩ ∧
       getDoc (add_members s a t ms).2 (docId a t) =
         some { d with members := arrayUnion d.members ms } ∧
       (remove_members s a t ms).1 = .ok ⟨a, t, ms⟩ ∧
       getDoc (remove_members s a t ms).2 (docId a t) =
         some { d with members := arrayRemove d.members ms }) := by
  constructor
  · intro h
    simp [add_members, remove_members, h]
  · intro d h
    simp [add_members, remove_members, h, getDoc_setDoc_self]

/-- Witness for the amended C5: on the empty store both operations fail
with `ValueError` and leave the store unchanged. -/
theorem add_remove_members_update_and_not_found_witness :
    (∃ m1, (add_members ([] : GroupStore) "BILLING" "CRITICAL" ["b@x.com"]).1 =
      .error (.valueError m1)) ∧
    (add_members ([] : GroupStore) "BILLING" "CRITICAL" ["b@x.com"]).2 = [] ∧
    (∃ m2, (remove_members ([] : GroupStore) "BILLING" "CRITICAL" ["b@x.com"]).1 =
      .error (.valueError m2)) ∧
    (remove_members ([] : GroupStore) "BILLING" "CRITICAL" ["b@x.com"]).2 = [] :=
  (add_remove_members_update_and_not_found [] "BILLING" "CRITICAL" ["b@x.com"]).1 rfl

/-- C6 counterexample: `add_email_group` stores the input member list
verbatim, so a create call with a duplicated member stores the duplicate —
the stored `members` field is `["a@x.com", "a@x.com"]`, which is not
duplicate-free. -/
theorem create_group_preserves_duplicate_members :
    (add_email_group ([] : GroupStore) "BILLING" "CRITICAL" ["a@x.com", "a@x.com"]
        "alice" "T1" 0).1 =
      .ok ⟨"BILLING", "CRITICAL", ["a@x.com", "a@x.com"], "alice", "T1", 0⟩ ∧
    (getDoc (add_email_group ([] : GroupStore) "BILLING" "CRITICAL" ["a@x.com", "a@x.com"]
        "alice" "T1" 0).2 (docId "BILLING" "CRITICAL")).map GroupDoc.members =
      some ["a@x.com", "a@x.com"] ∧
    ¬ (["a@x.com", "a@x.com"] : List String).Nodup := by
  refine ⟨rfl, rfl, by decide⟩

/-- C6 (amended): the `members` field stored by `add_email_group` is the
input member list verbatim — order preserved and duplicates NOT collapsed. -/
theorem create_group_stores_members_verbatim
    (s : GroupStore) (a t : String) (ms : List String) (ab tid : String) (now : Nat)
    (h : getDoc s (docId a t) = none) :
    (getDoc (add_email_group s a t ms ab tid now).2 (docId a t)).map GroupDoc.members =
      some ms := by
  simp [add_email_group, h, getDoc_setDoc_self]

/-- Witness for the amended C6 at a duplicated input list. -/
theorem create_group_stores_members_verbatim_witness :
    (getDoc (add_email_group ([] : GroupStore) "APP" "ALERT" ["a@x.com", "a@x.com"]
        "alice" "T1" 0).2 (docId "APP" "ALERT")).map GroupDoc.members =
      some ["a@x.com", "a@x.com"] :=
  create_group_stores_members_verbatim [] "APP" "ALERT" ["a@x.com", "a@x.com"] "alice" "T1" 0 rfl

/-- C7: `get_email_group` on a missing key returns the explicit absent
value `none` (the not-found branch returns rather than raising), and on a
present key — in particular one whose `members` list is empty — it returns
`some` of the stored record, which is distinguishable from `none`. -/
theorem get_email_group_absent_vs_empty (s : GroupStore) (a t : String) :
    (getDoc s (docId a t) = none → get_email_group s a t = none) ∧
    (∀ d, getDoc s (docId a t) = some d →
       get_email_group s a t = some d ∧ get_email_group s a t ≠ none) := by
  refine ⟨fun h => by simp [get_email_group, h],
    fun d h => ⟨by simp [get_email_group, h], by simp [get_email_group, h]⟩⟩

/-- Witness for C7: the empty store gives `none`; a store holding a group
with an empty members list gives a `some` value distinct from `none`. -/
theorem get_email_group_absent_vs_empty_witness :
    get_email_group ([] : GroupStore) "BILLING" "CRITICAL" = none ∧
    (get_email_group
        [(docId "BILLING" "CRITICAL", ⟨"BILLING", "CRITICAL", [], "alice", "T1", 0⟩)]
        "BILLING" "CRITICAL" = some ⟨"BILLING", "CRITICAL", [], "alice", "T1", 0⟩ ∧
      get_email_group
        [(docId "BILLING" "CRITICAL", ⟨"BILLING", "CRITICAL", [], "alice", "T1", 0⟩)]
        "BILLING" "CRITICAL" ≠ none) :=
  ⟨(get_email_group_absent_vs_empty [] "BILLING" "CRITICAL").1 rfl,
   (get_email_group_absent_vs_empty
      [(docId "BILLING" "CRITICAL", ⟨"BILLING", "CRITICAL", [], "alice", "T1", 0⟩)]
      "BILLING" "CRITICAL").2 _ rfl⟩

/-- C1: in the notify-group workflow a send occurs only when the
notification-log append completed successfully before it, and when the log
append fails (the log store's `add` throws, so `log_notification` raises
`FirestoreError`) the workflow terminates in `LogFailed`, no log entry is
committed, and the channel sender is never invoked. -/
theorem notify_group_log_gates_send
    (s : GroupStore) (logs : List LogEntry) (logOk dispatchOk : Bool)
    (a t rb c : String) (now : Nat) :
    ((notify_group_flow s logs logOk dispatchOk a t rb c now).1.senderInvoked = true →
       (notify_group_flow s logs logOk dispatchOk a t rb c now).1.logWritten = true ∧
       logOk = true) ∧
    (logOk = false →
       (notify_group_flow s logs logOk dispatchOk a t rb c now).1.senderInvoked = false ∧
       (notify_group_flow s logs logOk dispatchOk a t rb c now).2 = logs ∧
       ∀ d, get_email_group s a t = some d → d.members ≠ [] →
         (notify_group_flow s logs logOk dispatchOk a t rb c now).1.state = .logFailed) := by
  cases hg : get_email_group s a t with
  | none => simp [notify_group_flow, hg]
  | some d =>
    by_cases hm : d.members = []
    · simp [notify_group_flow, hg, hm]
    · cases logOk with
      | false => simp [notify_group_flow, log_notification, hg, hm]
      | true => cases dispatchOk <;> simp [notify_group_flow, log_notification, hg, hm]

/-- Witness for C1: a one-group store with a failing log store — the
workflow ends in `LogFailed`, the log collection is unchanged, and the
sender is never invoked. -/
theorem notify_group_log_gates_send_witness :
    (notify_group_flow
        [(docId "APP" "ALERT", ⟨"APP", "ALERT", ["test@example.com"], "u", "T1", 0⟩)]
        [] false true "APP" "ALERT" "user" "content" 1).1.senderInvoked = false ∧
    (notify_group_flow
        [(docId "APP" "ALERT", ⟨"APP", "ALERT", ["test@example.com"], "u", "T1", 0⟩)]
        [] false true "APP" "ALERT" "user" "content" 1).2 = [] ∧
    (notify_group_flow
        [(docId "APP" "ALERT", ⟨"APP", "ALERT", ["test@example.com"], "u", "T1", 0⟩)]
        [] false true "APP" "ALERT" "user" "content" 1).1.state = .logFailed := by
  have h := (notify_group_log_gates_send
    [(docId "APP" "ALERT", ⟨"APP", "ALERT", ["test@example.com"], "u", "T1", 0⟩)]
    [] false true "APP" "ALERT" "user" "content" 1).2 rfl
  exact ⟨h.1, h.2.1, h.2.2 _ rfl (by simp)⟩

/-- C3: when the group exists but its members list is empty, the
notify-group workflow terminates in `EmptyGroup`, no notification-log entry
is written, and the channel sender is never invoked. -/
theorem notify_group_empty_group
    (s : GroupStore) (logs : List LogEntry) (logOk dispatchOk : Bool)
    (a t rb c : String) (now : Nat) (d : GroupDoc)
    (hg : get_email_group s a t = some d) (hm : d.members = []) :
    (notify_group_flow s logs logOk dispatchOk a t rb c now).1.state = .emptyGroup ∧
    (notify_group_flow s logs logOk dispatchOk a t rb c now).1.logWritten = false ∧
    (notify_group_flow s logs logOk dispatchOk a t rb c now).1.senderInvoked = false ∧
    (notify_group_flow s logs logOk dispatchOk a t rb c now).2 = logs := by
  simp [notify_group_flow, hg, hm]

/-- Witness for C3: a store holding a zero-member group. -/
theorem notify_group_empty_group_witness :
    (notify_group_flow [(docId "APP" "ALERT", ⟨"APP", "ALERT", [], "u", "T1", 0⟩)]
        [] true true "APP" "ALERT" "user" "content" 1).1.state = .emptyGroup ∧
    (notify_group_flow [(docId "APP" "ALERT", ⟨"APP", "ALERT", [], "u", "T1", 0⟩)]
        [] true true "APP" "ALERT" "user" "content" 1).1.logWritten = false ∧
    (notify_group_flow [(docId "APP" "ALERT", ⟨"APP", "ALERT", [], "u", "T1", 0⟩)]
        [] true true "APP" "ALERT" "user" "content" 1).1.senderInvoked = false ∧
    (notify_group_flow [(docId "APP" "ALERT", ⟨"APP", "ALERT", [], "u", "T1", 0⟩)]
        [] true true "APP" "ALERT" "user" "content" 1).2 = [] :=
  notify_group_empty_group
    [(docId "APP" "ALERT", ⟨"APP", "ALERT", [], "u", "T1", 0⟩)]
    [] true true "APP" "ALERT" "user" "content" 1 _ rfl rfl

/-- C8 counterexample: `SmtpService.send_email` does not fail with a
configuration error — with the server address absent it silently skips the
send (returning without error), and with the server present it proceeds to
the network send even with no to-address and no sender identity. -/
theorem smtp_service_no_configuration_error :
    SmtpService.send_email ⟨none, 587, none, none, none⟩ ["user@x.com"] "Subject" "Content" =
      .skipped ∧
    SmtpService.send_email ⟨some "smtp.test", 587, none, none, none⟩ [] "Subject" "Content" =
      .sent none "" "Subject" :=
  ⟨rfl, rfl⟩

/-- C8 (amended): `EmailNotificationService.send_email` fails with the
matching configuration error before any network I/O when the SMTP server is
absent, when the sender identity is absent, or when no to-address is given;
`SmtpService.send_email`, by contrast, only checks the server address and
silently skips the send (no error, no I/O) when it is absent, performing no
sender or to-address validation. -/
theorem email_sender_config_checks (cfg : EmailConfig) (st : SmtpSettings)
    (to_emails cc bcc : List String) (subject message content : String) :
    (truthy cfg.smtp_server = false →
       send_email cfg to_emails subject message cc bcc = .error .smtpServerNotConfigured) ∧
    (truthy cfg.smtp_server = true → truthy cfg.sender_email = false →
       send_email cfg to_emails subject message cc bcc = .error .senderEmailNotConfigured) ∧
    (truthy cfg.smtp_server = true → truthy cfg.sender_email = true → to_emails = [] →
       send_email cfg to_emails subject message cc bcc = .error .noRecipients) ∧
    (truthy st.smtp_host = false →
       SmtpService.send_email st to_emails subject content = .skipped) := by
  refine ⟨fun h => by simp [send_email, h],
    fun h1 h2 => by simp [send_email, h1, h2],
    fun h1 h2 h3 => by simp [send_email, h1, h2, h3],
    fun h => by simp [SmtpService.send_email, h]⟩

/-- Witness for the amended C8, one concrete instance per configuration
check. -/
theorem email_sender_config_checks_witness :
    send_email ⟨none, 587, none, none, true, some "noreply@x.com", "Svc"⟩
      ["to@x.com"] "S" "M" [] [] = .error .smtpServerNotConfigured ∧
    send_email ⟨some "smtp.test", 587, none, none, true, none, "Svc"⟩
      ["to@x.com"] "S" "M" [] [] = .error .senderEmailNotConfigured ∧
    send_email ⟨some "smtp.test", 587, none, none, true, some "noreply@x.com", "Svc"⟩
      [] "S" "M" [] [] = .error .noRecipients ∧
    SmtpService.send_email ⟨none, 587, none, none, none⟩ ["to@x.com"] "S" "C" = .skipped :=
  ⟨(email_sender_config_checks ⟨none, 587, none, none, true, some "noreply@x.com", "Svc"⟩
      ⟨none, 587, none, none, none⟩ ["to@x.com"] [] [] "S" "M" "C").1 rfl,
   (email_sender_config_checks ⟨some "smtp.test", 587, none, none, true, none, "Svc"⟩
      ⟨none, 587, none, none, none⟩ ["to@x.com"] [] [] "S" "M" "C").2.1 rfl rfl,
   (email_sender_config_checks ⟨some "smtp.test", 587, none, none, true, some "noreply@x.com", "Svc"⟩
      ⟨none, 587, none, none, none⟩ [] [] [] "S" "M" "C").2.2.1 rfl rfl rfl,
   (email_sender_config_checks ⟨some "smtp.test", 587, none, none, true, some "noreply@x.com", "Svc"⟩
      ⟨none, 587, none, none, none⟩ ["to@x.com"] [] [] "S" "M" "C").2.2.2 rfl⟩

theorem color_lookup_mem (k : String) :
    (match color_map.lookup k with
     | some c => c
     | none => "0078D4") ∈ ["0078D4", "FFA500", "D13438", "28A745"] := by
  by_cases h1 : k = "info"
  · simp [color_map, List.lookup, h1]
  by_cases h2 : k = "warning"
  · simp [color_map, List.lookup, h2, beq_eq_false_iff_ne.mpr h1]
  by_cases h3 : k = "error"
  · simp [color_map, List.lookup, h3, beq_eq_false_iff_ne.mpr h1, beq_eq_false_iff_ne.mpr h2]
  by_cases h4 : k = "success"
  · simp [color_map, List.lookup, h4, beq_eq_false_iff_ne.mpr h1,
      beq_eq_false_iff_ne.mpr h2, beq_eq_false_iff_ne.mpr h3]
  · simp [color_map, List.lookup, beq_eq_false_iff_ne.mpr h1,
      beq_eq_false_iff_ne.mpr h2, beq_eq_false_iff_ne.mpr h3, beq_eq_false_iff_ne.mpr h4]

/-- C9: `_get_severity_color` maps every severity string, keyed on its
Python-lowercased form, to one of exactly four colors, with unrecognized or
missing severity falling back to the `info` color `"0078D4"`; and the card
rendered for the spec's concrete scenario (message `"CPU high"`, url
`"https://x"`, severity `"warning"`, facts `Host=srv1`) carries the warning
color `"FFA500"` and fact rows `URL`, then `Host=srv1` in insertion order,
then the generated `Timestamp` row last. -/
theorem severity_color_map_and_card (s now : String) :
    get_severity_color none = "0078D4" ∧
    (pyLower s = "info" → get_severity_color (some s) = "0078D4") ∧
    (pyLower s = "warning" → get_severity_color (some s) = "FFA500") ∧
    (pyLower s = "error" → get_severity_color (some s) = "D13438") ∧
    (pyLower s = "success" → get_severity_color (some s) = "28A745") ∧
    get_severity_color (some s) ∈ ["0078D4", "FFA500", "D13438", "28A745"] ∧
    (pyLower s ∉ (["info", "warning", "error", "success"] : List String) →
       get_severity_color (some s) = "0078D4") ∧
    (build_message_card "CPU high" (some "https://x") "Notification"
        (get_severity_color (some "warning")) (some [("Host", "srv1")]) now).themeColor =
      "FFA500" ∧
    (build_message_card "CPU high" (some "https://x") "Notification"
        (get_severity_color (some "warning")) (some [("Host", "srv1")]) now).sections.flatten =
      [⟨"URL", "https://x"⟩, ⟨"Host", "srv1"⟩, ⟨"Timestamp", now⟩] := by
  have hne : ∀ w : String, pyLower s = w → w ≠ "" → s ≠ "" := by
    intro w hw hwne he
    rw [he] at hw
    exact hwne (by rw [← hw]; rfl)
  refine ⟨rfl, ?_, ?_, ?_, ?_, color_lookup_mem _, ?_, rfl, rfl⟩
  · intro h
    by_cases hs : s = ""
    · simp [get_severity_color, hs, color_map, List.lookup]
    · simp [get_severity_color, hs, h, color_map, List.lookup]
  · intro h
    have hs := hne _ h (by decide)
    simp [get_severity_color, hs, h, color_map, List.lookup]
  · intro h
    have hs := hne _ h (by decide)
    simp [get_severity_color, hs, h, color_map, List.lookup]
  · intro h
    have hs := hne _ h (by decide)
    simp [get_severity_color, hs, h, color_map, List.lookup]
  · intro h
    by_cases hs : s = ""
    · simp [get_severity_color, hs, color_map, List.lookup]
    · have h1 : pyLower s ≠ "info" := fun e => h (by simp [e])
      have h2 : pyLower s ≠ "warning" := fun e => h (by simp [e])
      have h3 : pyLower s ≠ "error" := fun e => h (by simp [e])
      have h4 : pyLower s ≠ "success" := fun e => h (by simp [e])
      simp [get_severity_color, hs, color_map, List.lookup, beq_eq_false_iff_ne.mpr h1,
        beq_eq_false_iff_ne.mpr h2, beq_eq_false_iff_ne.mpr h3, beq_eq_false_iff_ne.mpr h4]

/-- Witness for C9 at the mixed-case severity `"Warning"` and a fixed
render-time timestamp. -/
theorem severity_color_map_and_card_witness :
    pyLower "Warning" = "warning" ∧
    get_severity_color (some "Warning") = "FFA500" ∧
    (build_message_card "CPU high" (some "https://x") "Notification"
        (get_severity_color (some "warning")) (some [("Host", "srv1")])
        "2026-10-12 00:00:00 UTC").themeColor = "FFA500" ∧
    (build_message_card "CPU high" (some "https://x") "Notification"
        (get_severity_color (some "warning")) (some [("Host", "srv1")])
        "2026-10-12 00:00:00 UTC").sections.flatten =
      [⟨"URL", "https://x"⟩, ⟨"Host", "srv1"⟩, ⟨"Timestamp", "2026-10-12 00:00:00 UTC"⟩] := by
  have h := severity_color_map_and_card "Warning" "2026-10-12 00:00:00 UTC"
  exact ⟨rfl, h.2.2.1 rfl, h.2.2.2.2.2.2.2.1, h.2.2.2.2.2.2.2.2⟩

/-- C10: whenever `EmailNotificationService.send_email` reaches the network
send, the envelope recipient list passed to `sendmail` is
`to_emails ++ cc_emails ++ bcc_emails` — so every bcc address is in the
envelope — while the message headers carry no `Bcc` entry, the `To` header
is exactly the comma-joined to-list, and the `Cc` header, present only when
cc is nonempty, is exactly the comma-joined cc-list. -/
theorem send_email_bcc_envelope_only (cfg : EmailConfig)
    (to_emails cc bcc : List String) (subject message : String) (call : SendmailCall)
    (h : send_email cfg to_emails subject message cc bcc = .ok call) :
    call.recipients = to_emails ++ cc ++ bcc ∧
    (∀ b ∈ bcc, b ∈ call.recipients) ∧
    call.headers.lookup "Bcc" = none ∧
    call.headers.lookup "To" = some (String.intercalate ", " to_emails) ∧
    (cc ≠ [] → call.headers.lookup "Cc" = some (String.intercalate ", " cc)) ∧
    (cc = [] → call.headers.lookup "Cc" = none) := by
  by_cases h1 : truthy cfg.smtp_server
  · by_cases h2 : truthy cfg.sender_email
    · by_cases h3 : to_emails = []
      · simp [send_email, h1, h2, h3] at h
      · rw [send_email, if_neg (by simp [h1]), if_neg (by simp [h2]), if_neg h3] at h
        have hcall := Except.ok.inj h
        subst hcall
        by_cases hcc : cc = []
        · exact ⟨rfl, fun b hb => by simp [hb], by simp [hcc, List.lookup],
            by simp [hcc, List.lookup], fun hne => absurd hcc hne, fun _ => by
              simp [hcc, List.lookup]⟩
        · exact ⟨rfl, fun b hb => by simp [hb], by simp [hcc, List.lookup],
            by simp [hcc, List.lookup], fun _ => by simp [hcc, List.lookup],
            fun he => absurd he hcc⟩
    · simp [send_email, h1, h2] at h
  · simp [send_email, h1] at h

/-- Witness for C10: one concrete send with to, cc and bcc recipients. -/
theorem send_email_bcc_envelope_only_witness :
    (["to@x.com", "cc@x.com", "bcc@x.com"] : List String) =
      ["to@x.com"] ++ ["cc@x.com"] ++ ["bcc@x.com"] ∧
    (∀ b ∈ (["bcc@x.com"] : List String),
      b ∈ (["to@x.com", "cc@x.com", "bcc@x.com"] : List String)) ∧
    ([("Subject", "S"), ("From", "Svc <noreply@x.com>"), ("To", "to@x.com"),
        ("Cc", "cc@x.com")] : List (String × String)).lookup "Bcc" = none ∧
    ([("Subject", "S"), ("From", "Svc <noreply@x.com>"), ("To", "to@x.com"),
        ("Cc", "cc@x.com")] : List (String × String)).lookup "To" =
      some (String.intercalate ", " ["to@x.com"]) ∧
    ((["cc@x.com"] : List String) ≠ [] →
      ([("Subject", "S"), ("From", "Svc <noreply@x.com>"), ("To", "to@x.com"),
          ("Cc", "cc@x.com")] : List (String × String)).lookup "Cc" =
        some (String.intercalate ", " ["cc@x.com"])) ∧
    ((["cc@x.com"] : List String) = [] →
      ([("Subject", "S"), ("From", "Svc <noreply@x.com>"), ("To", "to@x.com"),
          ("Cc", "cc@x.com")] : List (String × String)).lookup "Cc" = none) :=
  send_email_bcc_envelope_only
    ⟨some "smtp.test", 587, none, none, true, some "noreply@x.com", "Svc"⟩
    ["to@x.com"] ["cc@x.com"] ["bcc@x.com"] "S" "M"
    ⟨"noreply@x.com", ["to@x.com", "cc@x.com", "bcc@x.com"],
      [("Subject", "S"), ("From", "Svc <noreply@x.com>"), ("To", "to@x.com"),
       ("Cc", "cc@x.com")]⟩ rfl

end Notification
